import Mathlib

/-!
Shallow embedding of the research-report pipeline of `src/app.py`
(Gemini Deep Research Agent).

The Python program chains a Firecrawl deep-research call, a Gemini draft
generation, and a Gemini enhancement generation.  External effects are
modelled by an environment `Env` carrying the two session credentials, the
outcome of the (single) Firecrawl network call, whether the Gemini model
object can be constructed, and a deterministic oracle for
`model.generate_content` (prompt to generated text, or a raised exception
message).  Each embedded function additionally returns the list of
observable events it performs, so that claims about call counts, call
order and request parameters can be stated.
-/

/-- A research source as found in the Firecrawl response: a dictionary that
may or may not carry a `url` key and a `summary` key. -/
structure Source where
  url : Option String
  summary : Option String
deriving DecidableEq

/-- The `data` object of a Firecrawl response; each field is `none` when the
corresponding key is absent from the dictionary. -/
structure FirecrawlData where
  finalAnalysis : Option String
  sources : Option (List Source)
deriving DecidableEq

/-- Outcome of the Firecrawl network call performed inside the `try` block of
`deep_research`: either a response dictionary (whose `data` key may be
absent), or a raised exception with its message. -/
inductive NetworkResult where
  | response (data : Option FirecrawlData)
  | exn (message : String)
deriving DecidableEq

/-- The dictionary returned by `deep_research`: either
`{"error": e, "success": False}` or
`{"success": True, "final_analysis": _, "sources_count": _, "sources": _}`. -/
inductive DRResult where
  | failure (error : String)
  | success (final_analysis : String) (sources_count : Nat) (sources : List Source)
deriving DecidableEq

/-- Observable events of one run. -/
inductive Event where
  | researchCalled (max_depth : Nat) (time_limit : Nat) (max_urls : Nat)
  | networkRequested (query : String) (maxDepth : Nat) (timeLimit : Nat) (maxUrls : Nat)
  | draftGenCalled (prompt : String)
  | enhanceStageEntered
  | enhanceGenCalled (prompt : String)
deriving DecidableEq

/-- The environment of one run: the two session credentials (empty string =
missing, matching Python truthiness), whether `genai.GenerativeModel`
construction succeeds, the outcome of the Firecrawl network call, and the
deterministic `generate_content` oracle. -/
structure Env where
  gemini_api_key : String
  firecrawl_api_key : String
  model_init_ok : Bool
  net : NetworkResult
  gen : String → Except String String

/-- Python substring test `needle in haystack` on character lists. -/
def listContainsSub (needle : List Char) : List Char → Bool
  | [] => needle.isEmpty
  | c :: rest => needle.isPrefixOf (c :: rest) || listContainsSub needle rest

/-- Python substring test `needle in haystack` on strings. -/
def strContains (haystack needle : String) : Bool :=
  listContainsSub needle.toList haystack.toList

/-- A single-quote character, as Python prints around the missing key of a
`KeyError`. -/
def pyQuote : String := String.mk [Char.ofNat 39]

/-- `str(KeyError('sources'))`, the message produced when
`results['data']['sources']` is evaluated on a data dictionary with no
`sources` key. -/
def keyErrorSources : String := pyQuote ++ "sources" ++ pyQuote

/-- Embedding of `deep_research` (src/app.py lines 52-89).  Returns the result
dictionary together with the events performed (a `networkRequested` event
when the Firecrawl endpoint is actually invoked). -/
def deep_research (env : Env) (query : String) (max_depth : Nat) (time_limit : Nat)
    (max_urls : Nat) : DRResult × List Event :=
  if env.firecrawl_api_key.isEmpty then
    (.failure "Firecrawl API key is missing", [])
  else
    match env.net with
    | .exn msg =>
        (.failure msg, [.networkRequested query max_depth time_limit max_urls])
    | .response none =>
        (.failure "Invalid Firecrawl response",
          [.networkRequested query max_depth time_limit max_urls])
    | .response (some data) =>
        match data.finalAnalysis with
        | none =>
            (.failure "Invalid Firecrawl response",
              [.networkRequested query max_depth time_limit max_urls])
        | some fa =>
            match data.sources with
            | none =>
                (.failure keyErrorSources,
                  [.networkRequested query max_depth time_limit max_urls])
            | some srcs =>
                (.success fa srcs.length srcs,
                  [.networkRequested query max_depth time_limit max_urls])

/-- Embedding of `get_gemini_model` (src/app.py lines 92-101): `true` iff a
model object is returned (key present and `genai.GenerativeModel` does not
raise). -/
def get_gemini_model (env : Env) : Bool :=
  if env.gemini_api_key.isEmpty then false else env.model_init_ok

/-- One entry of the source-preview list comprehension (src/app.py lines
121-125): `none` when the source has no `url` key. -/
def source_line (i : Nat) (s : Source) : Option String :=
  match s.url with
  | none => none
  | some u =>
      some ("Source " ++ toString (i + 1) ++ ": " ++ u ++ "\nSummary: " ++
        s.summary.getD "No summary available")

/-- The `sources_text` string of `run_research_with_gemini`: first five
sources, enumerated, sources without a `url` key skipped, joined by blank
lines. -/
def sources_text (sources : List Source) : String :=
  String.intercalate "\n\n" ((sources.take 5).enum.filterMap fun p => source_line p.1 p.2)

/-- The draft prompt f-string of `run_research_with_gemini` (src/app.py lines
127-145). -/
def research_prompt (query : String) (final_analysis : String) (sources_count : Nat)
    (stext : String) : String :=
  "\n    You are a research assistant analyzing the following research results on: \"" ++
  query ++
  "\"\n    \n    Final Analysis from research tool:\n    " ++
  final_analysis ++
  "\n    \n    Sources (" ++
  toString sources_count ++
  " total):\n    " ++
  stext ++
  "\n    \n    Please organize these research findings into a well-structured academic report with:\n    1. Executive Summary\n    2. Key Findings \n    3. Detailed Analysis\n    4. Implications\n    5. Conclusion\n    6. References (properly cite all sources)\n    \n    Format the report in Markdown.\n    "

/-- The enhancement prompt f-string of `enhance_report_with_gemini`
(src/app.py lines 161-177). -/
def enhancement_prompt (topic : String) (initial_report : String) : String :=
  "\n    RESEARCH TOPIC: " ++
  topic ++
  "\n    \n    INITIAL RESEARCH REPORT:\n    " ++
  initial_report ++
  "\n    \n    As an expert content enhancer specializing in research elaboration, please enhance this research report by:\n    1. Adding more detailed explanations of complex concepts\n    2. Including relevant examples, case studies, and real-world applications\n    3. Expanding on key points with additional context and nuance\n    4. Adding visual elements descriptions (charts, diagrams, infographics)\n    5. Incorporating latest trends and future predictions\n    6. Suggesting practical implications for different stakeholders\n    \n    Maintain academic rigor and factual accuracy while making the report more comprehensive.\n    Format the enhanced report in Markdown.\n    "

/-- Embedding of `run_research_with_gemini` (src/app.py lines 104-152),
parameterized by the research function exactly as in the source.  A
`researchCalled` event records the invocation of the research function with
its arguments, and a `draftGenCalled` event records each
`model.generate_content` call made for the draft. -/
def run_research_with_gemini (env : Env) (query : String)
    (research_function : String → Nat → Nat → Nat → DRResult × List Event) :
    String × List Event :=
  if get_gemini_model env = false then
    ("Failed to initialize Gemini model. Please check your API key.", [])
  else
    let r := research_function query 3 180 10
    let evs := Event.researchCalled 3 180 10 :: r.2
    match r.1 with
    | .failure err => ("Research failed: " ++ err, evs)
    | .success fa cnt srcs =>
        let prompt := research_prompt query fa cnt (sources_text srcs)
        match env.gen prompt with
        | .ok text => (text, evs ++ [.draftGenCalled prompt])
        | .error e => ("Failed to generate report: " ++ e, evs ++ [.draftGenCalled prompt])

/-- Embedding of `enhance_report_with_gemini` (src/app.py lines 155-184). -/
def enhance_report_with_gemini (env : Env) (topic : String) (initial_report : String) :
    String × List Event :=
  if get_gemini_model env = false then
    ("Failed to initialize Gemini model. Please check your API key.", [])
  else
    let prompt := enhancement_prompt topic initial_report
    match env.gen prompt with
    | .ok text => (text, [.enhanceGenCalled prompt])
    | .error e => ("Failed to enhance report: " ++ e, [.enhanceGenCalled prompt])

/-- Embedding of `run_research_process` (src/app.py lines 186-200): run the
draft stage, return early when the report contains the substring "Failed",
otherwise run the enhancement stage.  `enhanceStageEntered` records that
`enhance_report_with_gemini` was invoked. -/
def run_research_process (env : Env) (topic : String) : String × List Event :=
  let r1 := run_research_with_gemini env topic (deep_research env)
  if strContains r1.1 "Failed" then r1
  else
    let r2 := enhance_report_with_gemini env topic r1.1
    (r2.1, r1.2 ++ Event.enhanceStageEntered :: r2.2)

/-- What the presentation layer shows after a run: the rendered report with a
download action (carrying the download file name), or an inline error. -/
inductive UiOutcome where
  | reportShown (text : String) (download_file_name : String)
  | errorShown (message : String)
deriving DecidableEq

/-- Embedding of `research_topic.replace(' ', '_')`: the old string is the
single character space, so the substring replacement is a character map. -/
def sanitize_topic (s : String) : String :=
  String.mk (s.toList.map fun c => if c = ' ' then '_' else c)

/-- Embedding of the `run` coroutine of the button handler (src/app.py lines
209-225): render the report and offer the download button only when the final
text does not contain the substring "Failed"; otherwise show an inline
error. -/
def run (env : Env) (research_topic : String) : UiOutcome × List Event :=
  let r := run_research_process env research_topic
  if strContains r.1 "Failed" then (.errorShown r.1, r.2)
  else (.reportShown r.1 (sanitize_topic research_topic ++ "_report.md"), r.2)

/-- Whether an event is a `generate_content` invocation (draft or
enhancement). -/
def isGenCall : Event → Bool
  | .draftGenCalled _ => true
  | .enhanceGenCalled _ => true
  | _ => false

/-- Number of `generate_content` invocations in a trace. -/
def genCalls (evs : List Event) : Nat := (evs.filter isGenCall).length

/-- Decidable equality of generator outcomes. -/
instance : DecidableEq (Except String String) := fun a b =>
  match a, b with
  | .ok x, .ok y =>
      if h : x = y then isTrue (by rw [h]) else isFalse (by simp [h])
  | .error x, .error y =>
      if h : x = y then isTrue (by rw [h]) else isFalse (by simp [h])
  | .ok _, .error _ => isFalse (by simp)
  | .error _, .ok _ => isFalse (by simp)

/-! Concrete run environments used to evaluate the embedding on closed
inputs. -/

/-- A run with the Gemini key present but the Firecrawl key missing: the
research stage fails with the missing-credential error. -/
def envC1 : Env :=
  { gemini_api_key := "key", firecrawl_api_key := "",
    model_init_ok := true, net := .response none,
    gen := fun _ => .ok "Enhanced output text" }

/-- A run whose Firecrawl response carries `finalAnalysis` but no `sources`
key. -/
def envC2 : Env :=
  { gemini_api_key := "key", firecrawl_api_key := "fkey",
    model_init_ok := true,
    net := .response (some { finalAnalysis := some "The analysis", sources := none }),
    gen := fun _ => .ok "out" }

/-- A run with a successful research stage whose generation call raises. -/
def envC3a : Env :=
  { gemini_api_key := "key", firecrawl_api_key := "fkey",
    model_init_ok := true,
    net := .response (some { finalAnalysis := some "A", sources := some [] }),
    gen := fun _ => .error "boom" }

/-- A run in which the Gemini key is missing, so the model cannot be
initialized. -/
def envC3b : Env :=
  { gemini_api_key := "", firecrawl_api_key := "fkey",
    model_init_ok := true, net := .response none,
    gen := fun _ => .ok "x" }

/-- A single source with url and summary. -/
def oneSource : List Source := [{ url := some "u", summary := some "s" }]

/-- Seven sources, each with a `url` key. -/
def srcs7 : List Source :=
  [{ url := some "u1", summary := some "s1" }, { url := some "u2", summary := some "s2" },
   { url := some "u3", summary := some "s3" }, { url := some "u4", summary := some "s4" },
   { url := some "u5", summary := some "s5" }, { url := some "u6", summary := none },
   { url := some "u7", summary := none }]

/-- A run whose research stage succeeds with seven sources. -/
def envC4 : Env :=
  { gemini_api_key := "key", firecrawl_api_key := "fkey",
    model_init_ok := true,
    net := .response (some { finalAnalysis := some "ANALYSIS", sources := some srcs7 }),
    gen := fun _ => .ok "Report body" }

/-- Three sources, the first lacking a `url` key, the second lacking a
summary. -/
def srcsMixed : List Source :=
  [{ url := none, summary := some "s1" }, { url := some "u2", summary := none },
   { url := some "u3", summary := some "s3" }]

/-- A run whose research stage succeeds with the mixed source list. -/
def envC4b : Env :=
  { gemini_api_key := "key", firecrawl_api_key := "fkey",
    model_init_ok := true,
    net := .response (some { finalAnalysis := some "A2", sources := some srcsMixed }),
    gen := fun _ => .ok "Report body" }

/-- A run whose Firecrawl response has no `data` key, so the research stage
fails, followed by a benign enhancement output. -/
def envC5 : Env :=
  { gemini_api_key := "key", firecrawl_api_key := "fkey",
    model_init_ok := true, net := .response none,
    gen := fun _ => .ok "A polished report." }

/-- A fully successful run with a fixed mock research result and a fixed
mock generator. -/
def envC6 : Env :=
  { gemini_api_key := "key", firecrawl_api_key := "fkey",
    model_init_ok := true,
    net := .response (some { finalAnalysis := some "A", sources := some oneSource }),
    gen := fun _ => .ok "mock output" }

/-- A run with the Firecrawl key missing; the network outcome is irrelevant
because no request may be made. -/
def envC7 : Env :=
  { gemini_api_key := "key", firecrawl_api_key := "",
    model_init_ok := true, net := .exn "never reached",
    gen := fun _ => .ok "x" }

/-- A fully successful run used to observe the research-call parameters. -/
def envC8 : Env :=
  { gemini_api_key := "key", firecrawl_api_key := "fkey",
    model_init_ok := true,
    net := .response (some { finalAnalysis := some "A", sources := some [] }),
    gen := fun _ => .ok "x" }

/-- A fully successful run whose enhanced report happens to contain the
substring "Failed": the generator answers the enhancement prompt with such a
text and every other prompt with a clean draft. -/
def envC9 : Env :=
  { gemini_api_key := "key", firecrawl_api_key := "fkey",
    model_init_ok := true,
    net := .response (some { finalAnalysis := some "A", sources := some oneSource }),
    gen := fun p =>
      if p = enhancement_prompt "T" "clean draft" then .ok "It Failed anyway"
      else .ok "clean draft" }

/-! Helper lemmas about the substring test and the event traces. -/

/-- The substring test agrees with the infix relation on character lists. -/
theorem listContainsSub_iff (needle hay : List Char) :
    listContainsSub needle hay = true ↔ needle <:+: hay := by
  induction hay with
  | nil => simp [listContainsSub, List.isEmpty_iff]
  | cons c rest ih =>
    rw [listContainsSub]
    simp [List.infix_cons_iff, ih]

/-- The substring test agrees with the infix relation on the underlying
character lists of the strings. -/
theorem strContains_iff (haystack needle : String) :
    strContains haystack needle = true ↔ needle.toList <:+: haystack.toList :=
  listContainsSub_iff _ _

/-- A string starting with a prefix that itself starts with "Failed" contains
the substring "Failed". -/
theorem strContains_failed_of_head (pre e : String)
    (h : "Failed".toList <+: pre.toList) :
    strContains (pre ++ e) "Failed" = true := by
  rw [strContains_iff]
  have hl : (pre ++ e).toList = pre.toList ++ e.toList := rfl
  rw [hl]
  exact (h.trans (List.prefix_append _ _)).isInfix

/-- The events of `deep_research`: nothing, or exactly one network request
with the given arguments. -/
theorem deep_research_events (env : Env) (q : String) (d t u : Nat) :
    (deep_research env q d t u).2 = [] ∨
    (deep_research env q d t u).2 = [Event.networkRequested q d t u] := by
  unfold deep_research
  repeat' split
  all_goals simp

/-- On a successful Firecrawl response carrying both fields, `deep_research`
returns the success dictionary with `sources_count` equal to the length of
the source list, after exactly one network request. -/
theorem deep_research_success_eq (env : Env) (q : String) (d t u : Nat) (fa : String)
    (srcs : List Source)
    (hkey : env.firecrawl_api_key.isEmpty = false)
    (hnet : env.net = .response (some { finalAnalysis := some fa, sources := some srcs })) :
    deep_research env q d t u =
      (.success fa srcs.length srcs, [.networkRequested q d t u]) := by
  unfold deep_research
  simp [hkey, hnet]

/-- The events of `enhance_report_with_gemini`: nothing, or exactly one
generation call on the enhancement prompt. -/
theorem enhance_events (env : Env) (topic report : String) :
    (enhance_report_with_gemini env topic report).2 = [] ∨
    (enhance_report_with_gemini env topic report).2 =
      [Event.enhanceGenCalled (enhancement_prompt topic report)] := by
  unfold enhance_report_with_gemini
  split
  · simp
  · rcases h : env.gen (enhancement_prompt topic report) with t | e <;> simp [h]

/-- When the model is available and the generation call succeeds,
`enhance_report_with_gemini` returns the generated text. -/
theorem enhance_ok_eq (env : Env) (topic report text : String)
    (hm : get_gemini_model env = true)
    (hg : env.gen (enhancement_prompt topic report) = .ok text) :
    enhance_report_with_gemini env topic report =
      (text, [.enhanceGenCalled (enhancement_prompt topic report)]) := by
  unfold enhance_report_with_gemini
  simp [hm, hg]

/-- When the model is available and the research stage fails,
`run_research_with_gemini` returns the research failure message and performs
no generation call. -/
theorem rrwg_failure_eq (env : Env) (query e : String)
    (hm : get_gemini_model env = true)
    (hf : (deep_research env query 3 180 10).1 = .failure e) :
    run_research_with_gemini env query (deep_research env) =
      ("Research failed: " ++ e,
        Event.researchCalled 3 180 10 :: (deep_research env query 3 180 10).2) := by
  unfold run_research_with_gemini
  simp [hm, hf]

/-- When the model is available and the research stage succeeds, the draft
stage performs exactly one generation call, on the assembled draft prompt. -/
theorem rrwg_success_trace (env : Env) (query fa : String) (cnt : Nat) (srcs : List Source)
    (hm : get_gemini_model env = true)
    (hs : (deep_research env query 3 180 10).1 = .success fa cnt srcs) :
    (run_research_with_gemini env query (deep_research env)).2 =
      Event.researchCalled 3 180 10 :: ((deep_research env query 3 180 10).2 ++
        [Event.draftGenCalled (research_prompt query fa cnt (sources_text srcs))]) := by
  unfold run_research_with_gemini
  simp only [hm, Bool.true_eq_false, if_false, hs]
  split <;> simp

/-- When the model is available, the research stage succeeds and the draft
generation call succeeds, the draft stage returns the generated text. -/
theorem rrwg_success_ok_result (env : Env) (query fa : String) (cnt : Nat)
    (srcs : List Source) (text : String)
    (hm : get_gemini_model env = true)
    (hs : (deep_research env query 3 180 10).1 = .success fa cnt srcs)
    (hg : env.gen (research_prompt query fa cnt (sources_text srcs)) = .ok text) :
    (run_research_with_gemini env query (deep_research env)).1 = text := by
  unfold run_research_with_gemini
  simp [hm, hs, hg]

/-- When the model is available, the research stage succeeds and the draft
generation call raises, the draft stage returns the failure string. -/
theorem rrwg_success_err_result (env : Env) (query fa : String) (cnt : Nat)
    (srcs : List Source) (e : String)
    (hm : get_gemini_model env = true)
    (hs : (deep_research env query 3 180 10).1 = .success fa cnt srcs)
    (hg : env.gen (research_prompt query fa cnt (sources_text srcs)) = .error e) :
    (run_research_with_gemini env query (deep_research env)).1 =
      "Failed to generate report: " ++ e := by
  unfold run_research_with_gemini
  simp [hm, hs, hg]

/-- When the model cannot be obtained, `run_research_with_gemini` fails
before invoking anything. -/
theorem rrwg_no_model_eq (env : Env) (query : String)
    (rf : String → Nat → Nat → Nat → DRResult × List Event)
    (hm : get_gemini_model env = false) :
    run_research_with_gemini env query rf =
      ("Failed to initialize Gemini model. Please check your API key.", []) := by
  unfold run_research_with_gemini
  simp [hm]

/-- When the model cannot be initialized, the whole process stops with the
initialization failure and an empty trace. -/
theorem rrp_no_model_eq (env : Env) (topic : String)
    (hm : get_gemini_model env = false) :
    run_research_process env topic =
      ("Failed to initialize Gemini model. Please check your API key.", []) := by
  have h1 := rrwg_no_model_eq env topic (deep_research env) hm
  have hc : strContains "Failed to initialize Gemini model. Please check your API key."
      "Failed" = true := by decide
  simp only [run_research_process, h1]
  simp [hc]

/-- No draft generation call ever happens in a run whose research stage
returned a failure dictionary. -/
theorem no_draft_gen_on_research_failure (env : Env) (topic e : String)
    (hf : (deep_research env topic 3 180 10).1 = .failure e) (p : String) :
    Event.draftGenCalled p ∉ (run_research_process env topic).2 := by
  rcases Bool.eq_false_or_eq_true (get_gemini_model env) with hm | hm
  · have h1 := rrwg_failure_eq env topic e hm hf
    simp only [run_research_process, h1]
    rcases deep_research_events env topic 3 180 10 with h2 | h2 <;>
      rcases enhance_events env topic ("Research failed: " ++ e) with h3 | h3 <;>
      rw [h2, h3] <;> split <;> simp
  · rw [rrp_no_model_eq env topic hm]
    simp

/-- Full characterization of a run in which the model is available, the
research stage succeeds, and the draft generation call returns a text not
containing "Failed": the process reaches the enhancement stage and its trace
is research call, network request, draft generation, enhancement. -/
theorem rrp_success_full (env : Env) (topic fa draft : String) (srcs : List Source)
    (hm : get_gemini_model env = true)
    (hkey : env.firecrawl_api_key.isEmpty = false)
    (hnet : env.net = .response (some { finalAnalysis := some fa, sources := some srcs }))
    (hg1 : env.gen (research_prompt topic fa srcs.length (sources_text srcs)) = .ok draft)
    (hnf : strContains draft "Failed" = false) :
    run_research_process env topic =
      ((enhance_report_with_gemini env topic draft).1,
        Event.researchCalled 3 180 10 :: Event.networkRequested topic 3 180 10 ::
        Event.draftGenCalled (research_prompt topic fa srcs.length (sources_text srcs)) ::
        Event.enhanceStageEntered :: (enhance_report_with_gemini env topic draft).2) := by
  have hd := deep_research_success_eq env topic 3 180 10 fa srcs hkey hnet
  have hd1 : (deep_research env topic 3 180 10).1 = .success fa srcs.length srcs := by
    rw [hd]
  have hd2 : (deep_research env topic 3 180 10).2 =
      [Event.networkRequested topic 3 180 10] := by
    rw [hd]
  have h1 : (run_research_with_gemini env topic (deep_research env)).1 = draft :=
    rrwg_success_ok_result env topic fa srcs.length srcs draft hm hd1 hg1
  have h2 := rrwg_success_trace env topic fa srcs.length srcs hm hd1
  rw [hd2] at h2
  simp only [run_research_process, h1, h2, hnf]
  simp

/-- C7: for every query and parameter choice, if the research-API credential
is absent, `deep_research` returns the `MissingCredential` failure dictionary
(error "Firecrawl API key is missing") to the caller, and performs no
network request (its event trace is empty, so in particular it contains no
`networkRequested` event). -/
theorem c7_missing_credential_no_network (env : Env) (query : String) (d t u : Nat)
    (hkey : env.firecrawl_api_key.isEmpty = true) :
    (deep_research env query d t u).1 = DRResult.failure "Firecrawl API key is missing" ∧
    (deep_research env query d t u).2 = [] := by
  unfold deep_research
  simp [hkey]

/-- Witness for C7 at a concrete environment with an empty Firecrawl key. -/
theorem c7_missing_credential_no_network_witness :
    (deep_research envC7 "q" 3 180 10).1 = DRResult.failure "Firecrawl API key is missing" ∧
    (deep_research envC7 "q" 3 180 10).2 = [] :=
  c7_missing_credential_no_network envC7 "q" 3 180 10 (by decide)

/-- C10: `deep_research` is total over every environment and always returns a
dictionary with a success flag: either a failure carrying an error string,
or a success whose `sources_count` field equals the length of its `sources`
list. -/
theorem c10_deep_research_total_count_eq_length (env : Env) (query : String) (d t u : Nat) :
    (∃ e, (deep_research env query d t u).1 = DRResult.failure e) ∨
    (∃ fa srcs, (deep_research env query d t u).1 = DRResult.success fa srcs.length srcs) := by
  unfold deep_research
  repeat' split
  all_goals first
    | exact Or.inl ⟨_, rfl⟩
    | exact Or.inr ⟨_, _, rfl⟩

set_option maxRecDepth 80000 in
/-- C1: the claim fails on the code.  In `envC1` the research stage returns a
failure dictionary, `run_research_with_gemini` turns it into the string
"Research failed: ..." whose capital-F substring check at
`run_research_process` does not match, so the pipeline does not terminate:
the enhancement stage is invoked on the failure message and even produces a
final report. -/
theorem c1_research_failure_enhancement_still_invoked :
    (deep_research envC1 "topic" 3 180 10).1 =
      DRResult.failure "Firecrawl API key is missing" ∧
    (run_research_with_gemini envC1 "topic" (deep_research envC1)).1 =
      "Research failed: Firecrawl API key is missing" ∧
    Event.enhanceStageEntered ∈ (run_research_process envC1 "topic").2 ∧
    (run_research_process envC1 "topic").1 = "Enhanced output text" := by
  refine ⟨by decide, by decide, ?_, by decide⟩
  decide

set_option maxRecDepth 80000 in
/-- C5: the claim fails on the code.  In `envC5` the research stage fails
with an invalid Firecrawl response, yet the run ends with a rendered report
and a download action: the enhancement stage runs on the research failure
message, its output does not contain "Failed", and `run` offers the
download. -/
theorem c5_download_offered_despite_stage_failure :
    (deep_research envC5 "my topic" 3 180 10).1 =
      DRResult.failure "Invalid Firecrawl response" ∧
    (run envC5 "my topic").1 =
      UiOutcome.reportShown "A polished report." "my_topic_report.md" := by
  refine ⟨by decide, ?_⟩
  decide

set_option maxRecDepth 80000 in
/-- C2 counterexample: on a response whose `data` has `finalAnalysis` but no
`sources` key, `deep_research` does not return the `InvalidResponse` failure
(error "Invalid Firecrawl response"); it returns the caught `KeyError`
message instead, and the pipeline does not terminate: the enhancement stage
is still entered. -/
theorem c2_missing_sources_counterexample :
    (deep_research envC2 "q" 3 180 10).1 = DRResult.failure keyErrorSources ∧
    keyErrorSources ≠ "Invalid Firecrawl response" ∧
    Event.enhanceStageEntered ∈ (run_research_process envC2 "q").2 := by
  refine ⟨by decide, by decide, ?_⟩
  decide

/-- C2 amended: with the credential present, a response lacking the `data`
key or lacking `finalAnalysis` yields the `InvalidResponse` failure (error
"Invalid Firecrawl response"); a response lacking only `sources` yields the
caught `KeyError` failure (error "'sources'") instead of `InvalidResponse`;
in every case the result is a failure dictionary, not a crash, and on any
research failure the draft generation call is never attempted. -/
theorem c2_amended_missing_fields (env : Env) (query : String) (d t u : Nat)
    (hkey : env.firecrawl_api_key.isEmpty = false) :
    (env.net = .response none →
      (deep_research env query d t u).1 = DRResult.failure "Invalid Firecrawl response") ∧
    (∀ dat, env.net = .response (some dat) → dat.finalAnalysis = none →
      (deep_research env query d t u).1 = DRResult.failure "Invalid Firecrawl response") ∧
    (∀ dat fa, env.net = .response (some dat) → dat.finalAnalysis = some fa →
      dat.sources = none →
      (deep_research env query d t u).1 = DRResult.failure keyErrorSources) ∧
    (∀ e, (deep_research env query 3 180 10).1 = DRResult.failure e →
      ∀ p, Event.draftGenCalled p ∉ (run_research_process env query).2) := by
  refine ⟨?_, ?_, ?_, ?_⟩
  · intro hnet
    unfold deep_research
    simp [hkey, hnet]
  · intro dat hnet hfa
    unfold deep_research
    simp [hkey, hnet, hfa]
  · intro dat fa hnet hfa hsrc
    unfold deep_research
    simp [hkey, hnet, hfa, hsrc]
  · intro e hf p
    exact no_draft_gen_on_research_failure env query e hf p

/-- Witness for C2 amended at `envC2` (response with `finalAnalysis` and no
`sources`). -/
theorem c2_amended_missing_fields_witness :
    (deep_research envC2 "q" 3 180 10).1 = DRResult.failure keyErrorSources ∧
    Event.draftGenCalled (research_prompt "q" "The analysis" 0 (sources_text [])) ∉
      (run_research_process envC2 "q").2 := by
  have h := c2_amended_missing_fields envC2 "q" 3 180 10 (by decide)
  have hfail := h.2.2.1 { finalAnalysis := some "The analysis", sources := none }
    "The analysis" rfl rfl rfl
  exact ⟨hfail, h.2.2.2 keyErrorSources hfail _⟩

set_option maxRecDepth 80000 in
/-- C3 counterexample: when the model fails to initialize (a draft-generation
failure per the claim), the generator is called zero times, not exactly
once. -/
theorem c3_model_init_failure_counterexample :
    (run_research_process envC3b "t").1 =
      "Failed to initialize Gemini model. Please check your API key." ∧
    Event.enhanceStageEntered ∉ (run_research_process envC3b "t").2 ∧
    genCalls (run_research_process envC3b "t").2 = 0 ∧
    genCalls (run_research_process envC3b "t").2 ≠ 1 := by
  refine ⟨by decide, ?_, by decide, by decide⟩
  decide

/-- C3 amended: whenever draft generation fails, the enhancement stage is
never invoked and the generator is called at most once: exactly once when
the draft generation call raises, and zero times when the model fails to
initialize. -/
theorem c3_amended_generator_at_most_once (env : Env) (topic : String) :
    (∀ fa cnt srcs e, get_gemini_model env = true →
      (deep_research env topic 3 180 10).1 = DRResult.success fa cnt srcs →
      env.gen (research_prompt topic fa cnt (sources_text srcs)) = .error e →
      Event.enhanceStageEntered ∉ (run_research_process env topic).2 ∧
      genCalls (run_research_process env topic).2 = 1) ∧
    (get_gemini_model env = false →
      Event.enhanceStageEntered ∉ (run_research_process env topic).2 ∧
      genCalls (run_research_process env topic).2 = 0) := by
  constructor
  · intro fa cnt srcs e hm hs hg
    have h1 := rrwg_success_err_result env topic fa cnt srcs e hm hs hg
    have h2 := rrwg_success_trace env topic fa cnt srcs hm hs
    have hc : strContains (run_research_with_gemini env topic (deep_research env)).1
        "Failed" = true := by
      rw [h1]
      exact strContains_failed_of_head "Failed to generate report: " e (by decide)
    simp only [run_research_process, hc]
    rw [if_pos trivial, h2]
    rcases deep_research_events env topic 3 180 10 with hd | hd <;>
      rw [hd] <;> simp [genCalls, isGenCall]
  · intro hm
    rw [rrp_no_model_eq env topic hm]
    simp [genCalls]

/-- Witness for C3 amended: a raising generation call after a successful
research stage (`envC3a`), and a failed model initialization (`envC3b`). -/
theorem c3_amended_generator_at_most_once_witness :
    (Event.enhanceStageEntered ∉ (run_research_process envC3a "t").2 ∧
      genCalls (run_research_process envC3a "t").2 = 1) ∧
    (Event.enhanceStageEntered ∉ (run_research_process envC3b "t").2 ∧
      genCalls (run_research_process envC3b "t").2 = 0) :=
  ⟨(c3_amended_generator_at_most_once envC3a "t").1 "A" 0 [] "boom"
      (by decide) (by decide) rfl,
   (c3_amended_generator_at_most_once envC3b "t").2 (by decide)⟩

/-- The preview comprehension keeps exactly the enumerated entries whose
source carries a `url` key, each rendered with its URL, its summary and its
original enumeration index; entries without a `url` key are dropped. -/
theorem enumFrom_filterMap_source_line (l : List Source) (n : Nat) :
    (List.enumFrom n l).filterMap (fun p => source_line p.1 p.2) =
      ((List.enumFrom n l).filter (fun p => p.2.url.isSome)).map (fun p =>
        "Source " ++ toString (p.1 + 1) ++ ": " ++ p.2.url.getD "" ++ "\nSummary: " ++
          p.2.summary.getD "No summary available") := by
  induction l generalizing n with
  | nil => rfl
  | cons a as ih =>
    cases hu : a.url with
    | none =>
      have hline : source_line n a = none := by simp [source_line, hu]
      rw [List.enumFrom_cons, List.filterMap_cons, hline, List.filter_cons]
      simp [hu, ih (n + 1)]
    | some u =>
      have hline : source_line n a = some ("Source " ++ toString (n + 1) ++ ": " ++ u ++
          "\nSummary: " ++ a.summary.getD "No summary available") := by
        simp [source_line, hu]
      rw [List.enumFrom_cons, List.filterMap_cons, hline, List.filter_cons]
      simp [hu, ih (n + 1)]

/-- A pair drawn from an enumeration of a list has its second component in
the list. -/
theorem snd_mem_of_mem_enumFrom {l : List Source} {n : Nat} {p : Nat × Source}
    (h : p ∈ List.enumFrom n l) : p.2 ∈ l := by
  induction l generalizing n with
  | nil => simp [List.enumFrom] at h
  | cons a as ih =>
    rw [List.enumFrom_cons] at h
    rcases List.mem_cons.mp h with h | h
    · simp [h]
    · exact List.mem_cons_of_mem _ (ih h)

/-- For an arbitrary source list, `sources_text` is the preview of the
first five sources with the url-less ones excluded: exactly the entries of
the enumerated five-element slice that carry a `url` key, in order, each
with its URL, summary and original index. -/
theorem sources_text_eq_filtered (l : List Source) :
    sources_text l =
      String.intercalate "\n\n"
        (((l.take 5).enum.filter (fun p => p.2.url.isSome)).map (fun p =>
          "Source " ++ toString (p.1 + 1) ++ ": " ++ p.2.url.getD "" ++ "\nSummary: " ++
            p.2.summary.getD "No summary available")) := by
  unfold sources_text
  congr 1
  exact enumFrom_filterMap_source_line (l.take 5) 0

/-- On a list of sources that all carry a `url` key, `sources_text` is the
preview of exactly the first five sources, in order, each with its URL and
summary. -/
theorem sources_text_all_urls (l : List Source) (h : ∀ s ∈ l, s.url.isSome = true) :
    sources_text l =
      String.intercalate "\n\n" ((l.take 5).enum.map fun p =>
        "Source " ++ toString (p.1 + 1) ++ ": " ++ p.2.url.getD "" ++ "\nSummary: " ++
          p.2.summary.getD "No summary available") := by
  have h5 : ∀ p ∈ (l.take 5).enum, (fun p : Nat × Source => p.2.url.isSome) p := by
    intro p hp
    exact h p.2 (List.take_subset 5 l (snd_mem_of_mem_enumFrom hp))
  rw [sources_text_eq_filtered, List.filter_eq_self.mpr h5]

/-- C4: for every successful research result, the draft prompt handed to
the generator is exactly `research_prompt` applied to the topic, the final
analysis, the total source count (the length of the full source list, so
sources missing a url are still counted in the total) and the
`sources_text` preview; the preview is capped at the first 5 sources and
consists of exactly those among them that carry a `url` key, in order,
each with its URL and summary; in particular, with 7 sources all carrying
URLs, the preview lists exactly the first 5 sources and the embedded total
count is 7. -/
theorem c4_draft_prompt_sources_preview (env : Env) (query fa : String)
    (srcs : List Source)
    (hm : get_gemini_model env = true)
    (hkey : env.firecrawl_api_key.isEmpty = false)
    (hnet : env.net = .response (some { finalAnalysis := some fa, sources := some srcs })) :
    Event.draftGenCalled (research_prompt query fa srcs.length (sources_text srcs)) ∈
      (run_research_with_gemini env query (deep_research env)).2 ∧
    sources_text srcs =
      String.intercalate "\n\n"
        (((srcs.take 5).enum.filter (fun p => p.2.url.isSome)).map (fun p =>
          "Source " ++ toString (p.1 + 1) ++ ": " ++ p.2.url.getD "" ++ "\nSummary: " ++
            p.2.summary.getD "No summary available")) ∧
    (srcs.length = 7 → (∀ s ∈ srcs, s.url.isSome = true) →
      Event.draftGenCalled (research_prompt query fa 7 (sources_text srcs)) ∈
        (run_research_with_gemini env query (deep_research env)).2 ∧
      sources_text srcs =
        String.intercalate "\n\n" ((srcs.take 5).enum.map fun p =>
          "Source " ++ toString (p.1 + 1) ++ ": " ++ p.2.url.getD "" ++ "\nSummary: " ++
            p.2.summary.getD "No summary available") ∧
      (srcs.take 5).enum.length = 5) := by
  have hd := deep_research_success_eq env query 3 180 10 fa srcs hkey hnet
  have hd1 : (deep_research env query 3 180 10).1 = .success fa srcs.length srcs := by
    rw [hd]
  have h2 := rrwg_success_trace env query fa srcs.length srcs hm hd1
  refine ⟨?_, sources_text_eq_filtered srcs, ?_⟩
  · rw [h2]
    simp
  · intro hlen hurl
    rw [hlen] at h2
    refine ⟨?_, sources_text_all_urls srcs hurl, ?_⟩
    · rw [h2]
      simp
    · show (List.enumFrom 0 (srcs.take 5)).length = 5
      simp [hlen]

set_option maxRecDepth 400000 in
/-- Witness for C4: the seven-source all-URL run instantiates the
particular clause, and a mixed run whose first source lacks a `url` key
instantiates the general clauses; concretely the mixed preview skips
Source 1 and keeps the original numbering of Sources 2 and 3, while the
prompt handed to the generator still counts all 3 sources. -/
theorem c4_draft_prompt_sources_preview_witness :
    (Event.draftGenCalled (research_prompt "T" "ANALYSIS" 7 (sources_text srcs7)) ∈
      (run_research_with_gemini envC4 "T" (deep_research envC4)).2 ∧
     sources_text srcs7 =
       String.intercalate "\n\n" ((srcs7.take 5).enum.map fun p =>
         "Source " ++ toString (p.1 + 1) ++ ": " ++ p.2.url.getD "" ++ "\nSummary: " ++
           p.2.summary.getD "No summary available") ∧
     (srcs7.take 5).enum.length = 5) ∧
    (Event.draftGenCalled (research_prompt "T" "A2" 3 (sources_text srcsMixed)) ∈
      (run_research_with_gemini envC4b "T" (deep_research envC4b)).2 ∧
     sources_text srcsMixed =
       String.intercalate "\n\n"
         (((srcsMixed.take 5).enum.filter (fun p => p.2.url.isSome)).map (fun p =>
           "Source " ++ toString (p.1 + 1) ++ ": " ++ p.2.url.getD "" ++ "\nSummary: " ++
             p.2.summary.getD "No summary available"))) ∧
    sources_text srcsMixed =
      "Source 2: u2\nSummary: No summary available\n\nSource 3: u3\nSummary: s3" := by
  have hA := c4_draft_prompt_sources_preview envC4 "T" "ANALYSIS" srcs7
    (by decide) (by decide) rfl
  have hB := c4_draft_prompt_sources_preview envC4b "T" "A2" srcsMixed
    (by decide) (by decide) rfl
  exact ⟨hA.2.2 (by decide) (by decide), ⟨hB.1, hB.2.1⟩, by decide⟩

/-- C6: the pipeline is deterministic and its output is derived from nothing
but the two assembled prompts.  The embedding is a pure function of the
environment and the topic, so two runs over the same fixed mocks are the
same term; this theorem pins the final output down exactly: it is the
generator's response to the enhancement prompt built from the generator's
response to the draft prompt, and precisely two generation calls occur. -/
theorem c6_deterministic_pipeline (env : Env) (topic fa draft enhanced : String)
    (srcs : List Source)
    (hm : get_gemini_model env = true)
    (hkey : env.firecrawl_api_key.isEmpty = false)
    (hnet : env.net = .response (some { finalAnalysis := some fa, sources := some srcs }))
    (hg1 : env.gen (research_prompt topic fa srcs.length (sources_text srcs)) = .ok draft)
    (hnf : strContains draft "Failed" = false)
    (hg2 : env.gen (enhancement_prompt topic draft) = .ok enhanced) :
    (run_research_process env topic).1 = enhanced ∧
    genCalls (run_research_process env topic).2 = 2 := by
  have hfull := rrp_success_full env topic fa draft srcs hm hkey hnet hg1 hnf
  have he := enhance_ok_eq env topic draft enhanced hm hg2
  rw [hfull, he]
  simp [genCalls, isGenCall]

/-- Witness for C6 at a fixed mock environment. -/
theorem c6_deterministic_pipeline_witness :
    (run_research_process envC6 "T").1 = "mock output" ∧
    genCalls (run_research_process envC6 "T").2 = 2 :=
  c6_deterministic_pipeline envC6 "T" "A" "mock output" "mock output" oneSource
    (by decide) (by decide) rfl rfl (by decide) rfl

/-- C8: every research invocation made by the orchestrator carries exactly
the fixed parameters depth 3, time limit 180 and at most 10 URLs, and
whenever the model is available the research client is indeed invoked with
those parameters. -/
theorem c8_fixed_research_parameters (env : Env) (topic : String) :
    (∀ d t u, Event.researchCalled d t u ∈ (run_research_process env topic).2 →
      d = 3 ∧ t = 180 ∧ u = 10) ∧
    (get_gemini_model env = true →
      Event.researchCalled 3 180 10 ∈ (run_research_process env topic).2) := by
  constructor
  · intro d t u h
    rcases Bool.eq_false_or_eq_true (get_gemini_model env) with hm | hm
    · rcases hdr : (deep_research env topic 3 180 10).1 with e | ⟨fa, cnt, srcs⟩
      · have h1 := rrwg_failure_eq env topic e hm hdr
        simp only [run_research_process, h1] at h
        rcases deep_research_events env topic 3 180 10 with h2 | h2 <;>
          rcases enhance_events env topic ("Research failed: " ++ e) with h3 | h3 <;>
          rw [h2, h3] at h <;> split at h <;> simp_all
      · have h2 := rrwg_success_trace env topic fa cnt srcs hm hdr
        simp only [run_research_process] at h
        rcases deep_research_events env topic 3 180 10 with hd | hd <;>
          rcases enhance_events env topic
            (run_research_with_gemini env topic (deep_research env)).1 with h3 | h3 <;>
          rw [h2, hd] at h <;> rw [h3] at h <;> split at h <;> simp_all
    · rw [rrp_no_model_eq env topic hm] at h
      simp at h
  · intro hm
    rcases hdr : (deep_research env topic 3 180 10).1 with e | ⟨fa, cnt, srcs⟩
    · have h1 := rrwg_failure_eq env topic e hm hdr
      simp only [run_research_process, h1]
      split <;> simp
    · have h2 := rrwg_success_trace env topic fa cnt srcs hm hdr
      simp only [run_research_process]
      split <;> rw [h2] <;> simp

/-- Witness for C8: at a concrete successful environment the research client
is invoked, with the fixed parameters. -/
theorem c8_fixed_research_parameters_witness :
    (3 = 3 ∧ 180 = 180 ∧ 10 = 10) ∧
    Event.researchCalled 3 180 10 ∈ (run_research_process envC8 "t").2 :=
  ⟨(c8_fixed_research_parameters envC8 "t").1 3 180 10
      ((c8_fixed_research_parameters envC8 "t").2 (by decide)),
   (c8_fixed_research_parameters envC8 "t").2 (by decide)⟩

/-- C9: failure detection at the orchestrator and presentation boundaries is
a case-sensitive substring match on "Failed": in a run in which every stage
succeeded (research returned data, both generation calls returned text, the
draft is clean) but the enhanced report contains the substring "Failed", the
run is reported as an inline error and no report or download is offered. -/
theorem c9_failed_substring_blocks_success (env : Env) (topic fa draft enhanced : String)
    (srcs : List Source)
    (hm : get_gemini_model env = true)
    (hkey : env.firecrawl_api_key.isEmpty = false)
    (hnet : env.net = .response (some { finalAnalysis := some fa, sources := some srcs }))
    (hg1 : env.gen (research_prompt topic fa srcs.length (sources_text srcs)) = .ok draft)
    (hnf : strContains draft "Failed" = false)
    (hg2 : env.gen (enhancement_prompt topic draft) = .ok enhanced)
    (hfail : strContains enhanced "Failed" = true) :
    (run env topic).1 = UiOutcome.errorShown enhanced ∧
    ∀ text name, (run env topic).1 ≠ UiOutcome.reportShown text name := by
  have hfull := rrp_success_full env topic fa draft srcs hm hkey hnet hg1 hnf
  have he := enhance_ok_eq env topic draft enhanced hm hg2
  have hres : (run_research_process env topic).1 = enhanced := by rw [hfull, he]
  have hmain : (run env topic).1 = UiOutcome.errorShown enhanced := by
    simp only [run, hres, hfail]
    simp
  refine ⟨hmain, fun text name => ?_⟩
  rw [hmain]
  simp

set_option maxRecDepth 400000 in
/-- Witness for C9: a concrete all-success run whose enhanced report
contains "Failed" ends as an inline error with no report shown. -/
theorem c9_failed_substring_blocks_success_witness :
    (run envC9 "T").1 = UiOutcome.errorShown "It Failed anyway" ∧
    (run envC9 "T").1 ≠ UiOutcome.reportShown "It Failed anyway" "T_report.md" := by
  have h := c9_failed_substring_blocks_success envC9 "T" "A" "clean draft"
    "It Failed anyway" oneSource (by decide) (by decide) rfl (by decide) (by decide)
    (by decide) (by decide)
  exact ⟨h.1, h.2 "It Failed anyway" "T_report.md"⟩
